import Mathlib

/-!
Verification of the civic-issue reporting backend (Express + Mongoose controllers).

The embedding models the request handlers of `src/controllers/reportController.js`
and `src/controllers/authController.js` as pure functions from the request data and
the stored document to an HTTP response together with the resulting stored document
(or list of documents for the bulk operation).  Mongoose documents are records;
string-valued fields that may be absent (`undefined`/`null` in JS) are `Option String`
and JavaScript truthiness of such a field is the predicate `jsTruthy` (absent and the
empty string are falsy).  `parseInt`/`parseFloat` are modelled on decimal numerals,
with `none` standing for `NaN`.  External Cloudinary calls are modelled by recording
the attempted public ids together with an oracle telling, per public id, whether the
remote deletion succeeds; the controllers catch such failures, which the model
reflects by the result not depending on the oracle.
-/

namespace Civic

/-- JavaScript truthiness of an optional string field: `undefined`, `null` and the
empty string are falsy, every other string is truthy. -/
def jsTruthy : Option String → Bool
  | none => false
  | some s => s ≠ ""

/-- Value of a list of decimal digit characters, most significant first. -/
def digitsVal (cs : List Char) : Nat :=
  cs.foldl (fun n c => 10 * n + (c.toNat - 48)) 0

/-- Split an optional leading sign from a character list, returning
(`isNegative`, rest). -/
def splitSign : List Char → Bool × List Char
  | '-' :: r => (true, r)
  | '+' :: r => (false, r)
  | r => (false, r)

/-- Model of JavaScript `parseInt(s)` (radix 10) on decimal numerals:
optional sign followed by leading digits; `none` models `NaN`. -/
def parseIntJS (s : String) : Option Int :=
  let cs := s.data.dropWhile (· = ' ')
  let sr := splitSign cs
  let ds := sr.2.takeWhile (·.isDigit)
  if ds = [] then none
  else some (if sr.1 then -(digitsVal ds : Int) else (digitsVal ds : Int))

/-- An exact decimal number `mantissa / 10 ^ fracDigits`, the value a decimal
numeral denotes. -/
structure Dec where
  mantissa : Int
  fracDigits : Nat
deriving DecidableEq

/-- Model of JavaScript `parseFloat(s)` on decimal numerals: optional sign,
integer digits, optional fractional digits; `none` models `NaN`. -/
def parseFloatJS (s : String) : Option Dec :=
  let cs := s.data.dropWhile (· = ' ')
  let sr := splitSign cs
  let ip := sr.2.takeWhile (·.isDigit)
  let tail := sr.2.drop ip.length
  let fp := match tail with
    | '.' :: r => r.takeWhile (·.isDigit)
    | _ => []
  if ip = [] ∧ fp = [] then none
  else
    let m : Int := (digitsVal ip * 10 ^ fp.length + digitsVal fp : Nat)
    some ⟨if sr.1 then -m else m, fp.length⟩

/-- GeoJSON point as stored in `Report.location`
(`{ type: 'Point', coordinates: [longitude, latitude] }`). -/
structure GeoPoint where
  pointType : String
  coordinates : List (Option Dec)
deriving DecidableEq

/-- A stored `Report` document (`models/Report.js`, the schema revision the
controllers use: it has `assignedDepartment` and `upvotes`).  `user` is the owner's
ObjectId rendered as a string; `upvotes` is the list of upvoter ids. -/
structure Report where
  user : String
  category : Option String
  title : Option String
  description : Option String
  imageUrl : Option String
  afterImageUrl : Option String
  location : Option GeoPoint
  address : Option String
  status : String
  priority : String
  assignedDepartment : String
  severity : Option Int
  upvotes : List String
deriving DecidableEq

def statusEnum : List String := ["pending", "in-progress", "resolved"]

def priorityEnum : List String := ["low", "medium", "high"]

/-- Mongoose schema validation of a `Report` document, as re-run by
`document.save()` and `Report.create`: `user`, `category`, `description`
(max length 500) and `address` are required, `status` and `priority` are
enum-restricted, `location.type` must be `'Point'` when a location is present. -/
def validReport (r : Report) : Bool :=
  r.user ≠ "" &&
  jsTruthy r.category &&
  (match r.description with
   | some d => d ≠ "" && d.length ≤ 500
   | none => false) &&
  jsTruthy r.address &&
  statusEnum.contains r.status &&
  priorityEnum.contains r.priority &&
  (match r.location with
   | some g => g.pointType = "Point"
   | none => true)

/-- HTTP response as the controllers produce it: status code and the
`{success, message}` envelope (the `data` payload is the document returned
alongside). -/
structure Resp where
  code : Nat
  success : Bool
  message : String
deriving DecidableEq

/-- Request body of `POST /api/reports` after the multer/Cloudinary middleware:
multipart text fields are strings when present; `imageUrl` is the hosted URL the
upload middleware wrote into `req.body`, absent when no photo was sent. -/
structure CreateBody where
  title : Option String
  category : Option String
  address : Option String
  description : Option String
  latitude : Option String
  longitude : Option String
  severity : Option String
  imageUrl : Option String
deriving DecidableEq

/-- The `reportData` object built by `createReport`
(`reportController.js:129-157`): `title: title || category`, `status:'pending'`,
`priority:'medium'` refined by `parseInt(severity)` (`>=4` high, `<=2` low),
optional `imageUrl`, and `location` only when both coordinates are truthy,
stored as `[parseFloat(longitude), parseFloat(latitude)]`. -/
def buildReportData (uid : String) (b : CreateBody) : Report :=
  let base : Report :=
    { user := uid
      title := if jsTruthy b.title then b.title else b.category
      category := b.category
      address := b.address
      description := b.description
      imageUrl := none
      afterImageUrl := none
      location := none
      status := "pending"
      priority := "medium"
      assignedDepartment := "Unassigned"
      severity := none
      upvotes := [] }
  let r1 :=
    if jsTruthy b.severity then
      let lvl := parseIntJS (b.severity.getD "")
      { base with
        severity := lvl
        priority :=
          if lvl.elim false (· ≥ 4) then "high"
          else if lvl.elim false (· ≤ 2) then "low"
          else "medium" }
    else base
  let r2 :=
    if jsTruthy b.imageUrl then { r1 with imageUrl := b.imageUrl } else r1
  if jsTruthy b.latitude && jsTruthy b.longitude then
    { r2 with
      location := some
        { pointType := "Point"
          coordinates :=
            [parseFloatJS (b.longitude.getD ""), parseFloatJS (b.latitude.getD "")] } }
  else r2

/-- `createReport` handler (`reportController.js:114-175`): builds `reportData`,
persists it via `Report.create` (which validates), answers 201 with the record on
success and 400 with the error message otherwise. -/
def createReport (uid : String) (b : CreateBody) : Resp × Option Report :=
  let data := buildReportData uid b
  if validReport data then
    (⟨201, true, "Report submitted successfully"⟩, some data)
  else
    (⟨400, false, "ValidationError"⟩, none)

/-- Request body of `PUT /api/reports/:id` (admin status update) after the
`afterImage` upload middleware: `afterImageUrl` is either the URL the middleware
wrote or a client-supplied field; the handler reads only `status` and
`afterImageUrl`, but a patch may carry further fields, which we record to state
what happens to them. -/
structure UpdateBody where
  status : Option String
  afterImageUrl : Option String
  priority : Option String
  assignedDepartment : Option String
  description : Option String
deriving DecidableEq

/-- `updateReportStatus` handler (`reportController.js:295-317`), applied to the
found report: rejects `status === 'resolved'` with neither a truthy
`req.body.afterImageUrl` nor a truthy stored one (400, document untouched);
otherwise copies the truthy body fields `afterImageUrl` and `status` onto the
document and saves it (validators re-run; a save error answers 400 and leaves the
stored document unchanged). -/
def updateReportStatus (b : UpdateBody) (r : Report) : Resp × Report :=
  if b.status = some "resolved" && !jsTruthy b.afterImageUrl && !jsTruthy r.afterImageUrl then
    (⟨400, false, "After image required to resolve."⟩, r)
  else
    let r1 := if jsTruthy b.afterImageUrl then { r with afterImageUrl := b.afterImageUrl } else r
    let r2 := if jsTruthy b.status then { r1 with status := b.status.getD r1.status } else r1
    if validReport r2 then (⟨200, true, ""⟩, r2)
    else (⟨400, false, "ValidationError"⟩, r)

/-- The upvote toggle of `upvoteReport` (`reportController.js:234-244`):
`findIndex` of the caller id in `upvotes`, then `splice(i, 1)` when found,
`push` when not. -/
def toggleUpvote (upvotes : List String) (uid : String) : List String :=
  match upvotes.findIdx? (· = uid) with
  | some i => upvotes.eraseIdx i
  | none => upvotes ++ [uid]

/-- `upvoteReport` handler (`reportController.js:225-253`), applied to the found
report: toggles the caller id in `upvotes` and saves (a save error answers 500
and leaves the stored document unchanged). -/
def upvoteReport (uid : String) (r : Report) : Resp × Report :=
  let r' := { r with upvotes := toggleUpvote r.upvotes uid }
  if validReport r' then (⟨200, true, ""⟩, r')
  else (⟨500, false, "Server Error"⟩, r)

/-- The authenticated caller (`req.user`) as the `protect` middleware exposes it:
id and role looked up fresh from the credential store. -/
structure Caller where
  id : String
  role : String
deriving DecidableEq

/-- `updateUserReportImage` handler (`reportController.js:322-362`), applied to
the found report.  `hasFile` is `!!req.file`; `uploadResult` is the Cloudinary
upload outcome (`some url` on success, `none` on error — the old image's
best-effort external deletion cannot alter control flow and is not recorded).
Order of checks as in the source: missing file (400), non-owner (403),
non-pending status (400); then the upload, a 500 on upload error, and on success
the new URL is saved (a save failure persists nothing, modelled as 500). -/
def updateUserReportImage (c : Caller) (hasFile : Bool) (uploadResult : Option String)
    (r : Report) : Resp × Report :=
  if !hasFile then
    (⟨400, false, "No image file uploaded."⟩, r)
  else if r.user ≠ c.id then
    (⟨403, false, "User not authorized to update this report"⟩, r)
  else if r.status ≠ "pending" then
    (⟨400, false, "Cannot change image for a report that is in progress or resolved"⟩, r)
  else
    match uploadResult with
    | none => (⟨500, false, "Image upload failed"⟩, r)
    | some url =>
        let r' := { r with imageUrl := some url }
        if validReport r' then (⟨200, true, ""⟩, r')
        else (⟨500, false, "Server Error"⟩, r)

/-- Saving a cleared-image document in `deleteReportImage`: validators re-run;
an error answers 500 with the stored document unchanged. -/
def saveCleared (r' r : Report) : Resp × Report :=
  if validReport r' then (⟨200, true, ""⟩, r')
  else (⟨500, false, "Server Error"⟩, r)

/-- `deleteReportImage` handler (`reportController.js:367-409`), applied to the
found report.  Admin branch: `imageType` of `'before'`/`'after'` with a truthy
stored URL clears that slot, anything else is a 400.  User branch: 403 for a
non-owner, 400 for a non-pending report, clears `imageUrl` when truthy, else 400.
External deletions are best-effort and cannot alter the outcome. -/
def deleteReportImage (c : Caller) (imageType : Option String) (r : Report) :
    Resp × Report :=
  if c.role = "admin" then
    if imageType = some "before" && jsTruthy r.imageUrl then
      saveCleared { r with imageUrl := none } r
    else if imageType = some "after" && jsTruthy r.afterImageUrl then
      saveCleared { r with afterImageUrl := none } r
    else
      (⟨400, false, "Invalid or missing image type specified."⟩, r)
  else if r.user ≠ c.id then
    (⟨403, false, "User not authorized"⟩, r)
  else if r.status ≠ "pending" then
    (⟨400, false, "Cannot delete image for a non-pending report"⟩, r)
  else if jsTruthy r.imageUrl then
    saveCleared { r with imageUrl := none } r
  else
    (⟨400, false, "No image to delete."⟩, r)

/-- `str.split(sep)` of JavaScript on character lists: the empty string splits to
`[""]`, separators at the ends produce empty segments. -/
def splitOnChar (sep : Char) : List Char → List (List Char)
  | [] => [[]]
  | c :: rest =>
    let r := splitOnChar sep rest
    if c = sep then [] :: r
    else (c :: r.headD []) :: r.tail

/-- `arr.join(sep)` of JavaScript on character lists. -/
def joinWith (sep : Char) : List (List Char) → List Char
  | [] => []
  | [x] => x
  | x :: xs => x ++ sep :: joinWith sep xs

/-- Cloudinary public id derived from an image URL in `deleteFromCloudinary`
(`reportController.js:15-27` and the copy at `432-440`):
`url.split('/').slice(-2).join('/').split('.')[0]`. -/
def derivePublicId (url : String) : String :=
  let parts := splitOnChar '/' url.data
  let lastTwo := parts.drop (parts.length - 2)
  String.mk ((splitOnChar '.' (joinWith '/' lastTwo)).headD [])

/-- One best-effort `deleteFromCloudinary(url)` call: skipped on a falsy URL;
otherwise the destroy of the derived public id is attempted and its success or
failure (per the oracle `destroyOk`) is only logged.  The call is recorded as
(public id, outcome). -/
def cloudinaryDestroyAttempts (destroyOk : String → Bool) (url : Option String) :
    List (String × Bool) :=
  if jsTruthy url then
    let pid := derivePublicId (url.getD "")
    [(pid, destroyOk pid)]
  else []

/-- Outcome of `deleteReport`: the HTTP response, whether the stored record was
removed, and the attempted external deletions with their (ignored) results. -/
structure DeleteOutcome where
  resp : Resp
  removed : Bool
  attempts : List (String × Bool)
deriving DecidableEq

/-- `deleteReport` handler (`reportController.js:418-460`), applied to the found
report: 403 unless the caller is the owner or an admin; otherwise both stored
image URLs go through best-effort `deleteFromCloudinary` (each failure caught and
logged) and the record is deleted regardless, answering 200. -/
def deleteReport (c : Caller) (destroyOk : String → Bool) (r : Report) :
    DeleteOutcome :=
  if r.user ≠ c.id && c.role ≠ "admin" then
    ⟨⟨403, false, "User not authorized to delete this report"⟩, false, []⟩
  else
    ⟨⟨200, true, "Report deleted successfully"⟩, true,
      cloudinaryDestroyAttempts destroyOk r.imageUrl ++
        cloudinaryDestroyAttempts destroyOk r.afterImageUrl⟩

/-- Modelled from the spec: the `assignDepartment` controller is imported by the
routes (`routes/reports.js`) but its implementation is not among the provided
sources.  Per the spec, `assignDepartment(id, department) → Report` is admin-only
and sets `assignedDepartment`, failing with `NotFound` when the id is absent;
applied here to the found report. -/
def assignDepartment (department : String) (r : Report) : Resp × Report :=
  (⟨200, true, ""⟩, { r with assignedDepartment := department })

/-- The `updateData` object of `PUT /api/reports/bulk-update`
(`reportController.js:524-559`): an arbitrary client-supplied patch handed to
`Report.updateMany` unchanged, where every top-level key acts as a `$set` — the
fields a patch can set include `user`. -/
structure BulkPatch where
  user : Option String
  status : Option String
  priority : Option String
  assignedDepartment : Option String
deriving DecidableEq

/-- `$set` application of a bulk patch to one matched document. -/
def applyBulkPatch (p : BulkPatch) (r : Report) : Report :=
  { r with
    user := p.user.getD r.user
    status := p.status.getD r.status
    priority := p.priority.getD r.priority
    assignedDepartment := p.assignedDepartment.getD r.assignedDepartment }

/-- The update validators `runValidators: true` runs on the set paths of a bulk
patch: `user` required (non-empty), `status` and `priority` enum-restricted. -/
def bulkPatchValid (p : BulkPatch) : Bool :=
  (match p.user with | some u => u ≠ "" | none => true) &&
  (match p.status with | some s => statusEnum.contains s | none => true) &&
  (match p.priority with | some s => priorityEnum.contains s | none => true)

/-- `bulkUpdateReports` handler (`reportController.js:524-559`): applies the
patch to every stored document whose id is in `reportIds` in one
`Report.updateMany`; a validation error answers 400 with nothing modified. -/
def bulkUpdateReports (reportIds : List String) (p : BulkPatch)
    (db : List (String × Report)) : Resp × List (String × Report) :=
  if bulkPatchValid p then
    (⟨200, true, "Updated reports"⟩,
      db.map (fun e => if reportIds.contains e.1 then (e.1, applyBulkPatch p e.2) else e))
  else
    (⟨400, false, "ValidationError"⟩, db)

/-- A stored `User` document as `login` reads it: id, unique email, and the
bcrypt password hash (`select('+password')`). -/
structure User where
  id : String
  email : String
  password : String
deriving DecidableEq

/-- `login` handler (`authController.js:89-114`).  `compare` is the bcrypt hash
comparison; `db` the credential store searched by `findOne({email})`.  Missing
email or password is a 400; a failed lookup and a failed comparison both answer
401 `'Invalid credentials'`; success answers 200 with the token and public user
view (modelled as the found user). -/
def login (compare : String → String → Bool) (db : List User)
    (email password : Option String) : Resp × Option User :=
  if !jsTruthy email || !jsTruthy password then
    (⟨400, false, "Please provide an email and password"⟩, none)
  else
    match db.find? (fun u => some u.email = email) with
    | none => (⟨401, false, "Invalid credentials"⟩, none)
    | some u =>
        if compare (password.getD "") u.password then
          (⟨200, true, ""⟩, some u)
        else
          (⟨401, false, "Invalid credentials"⟩, none)

/-! ## Shared concrete documents for witnesses and counterexamples -/

/-- A concrete schema-valid pending report used by witnesses. -/
def exReport : Report :=
  { user := "owner1"
    category := some "Roads & Potholes"
    title := some "Pothole"
    description := some "Large pothole"
    imageUrl := some "https://res.x/civic_issues/img1.jpg"
    afterImageUrl := none
    location := none
    address := some "Main St"
    status := "pending"
    priority := "medium"
    assignedDepartment := "Unassigned"
    severity := none
    upvotes := [] }

/-! ## Helper lemmas -/

/-- Schema validation ignores `afterImageUrl` and accepts status `'resolved'`. -/
lemma validReport_afterImage_status (r : Report) (a : Option String)
    (h : validReport r = true) :
    validReport { r with afterImageUrl := a, status := "resolved" } = true := by
  simp only [validReport, Bool.and_eq_true] at h ⊢
  refine ⟨⟨⟨⟨⟨⟨h.1.1.1.1.1.1, h.1.1.1.1.1.2⟩, h.1.1.1.1.2⟩, h.1.1.1.2⟩, by decide⟩, h.1.2⟩, h.2⟩

/-- A resolving `updateReportStatus` call with an after-image available succeeds
and stores status `'resolved'` together with the effective after-image. -/
lemma updateReportStatus_resolved_ok (b : UpdateBody) (r : Report)
    (hbs : b.status = some "resolved") (hv : validReport r = true)
    (h3 : jsTruthy b.afterImageUrl = true ∨ jsTruthy r.afterImageUrl = true) :
    updateReportStatus b r =
      (⟨200, true, ""⟩,
        { r with
            afterImageUrl := if jsTruthy b.afterImageUrl then b.afterImageUrl else r.afterImageUrl,
            status := "resolved" }) := by
  have ht : jsTruthy b.status = true := by rw [hbs]; decide
  by_cases ha : jsTruthy b.afterImageUrl = true
  · simp only [updateReportStatus, Bool.false_eq_true, if_false, ht, if_true, ha, Bool.not_true,
      Bool.and_false, Bool.false_and]
    rw [hbs]
    simp only [Option.getD_some]
    rw [validReport_afterImage_status r b.afterImageUrl hv]
    simp [ha]
  · have ha' : jsTruthy b.afterImageUrl = false := by simpa using ha
    have hr : jsTruthy r.afterImageUrl = true := by
      rcases h3 with h | h
      · rw [ha'] at h; cases h
      · exact h
    simp only [updateReportStatus, Bool.false_eq_true, if_false, ht, if_true, ha', hr,
      Bool.not_true, Bool.and_false, Bool.false_and]
    rw [hbs]
    simp only [Option.getD_some]
    rw [show ({ r with status := "resolved" } : Report) =
          { r with afterImageUrl := r.afterImageUrl, status := "resolved" } from rfl,
      validReport_afterImage_status r r.afterImageUrl hv]
    simp [ha']

/-! ## Claims -/

/-- C1: a status patch to `'resolved'` with neither a newly uploaded after-image
nor a stored `afterImageUrl` answers 400 and leaves the stored report unchanged;
with either one present (on a schema-valid stored report) the resolution
succeeds, answering 200 with status `'resolved'`. -/
theorem claim_C1 :
    (∀ (b : UpdateBody) (r : Report),
      b.status = some "resolved" → jsTruthy b.afterImageUrl = false →
      jsTruthy r.afterImageUrl = false →
      updateReportStatus b r = (⟨400, false, "After image required to resolve."⟩, r)) ∧
    (∀ (b : UpdateBody) (r : Report),
      b.status = some "resolved" → validReport r = true →
      (jsTruthy b.afterImageUrl = true ∨ jsTruthy r.afterImageUrl = true) →
      (updateReportStatus b r).1.code = 200 ∧ (updateReportStatus b r).2.status = "resolved") := by
  constructor
  · intro b r h1 h2 h3
    simp [updateReportStatus, h1, h2, h3]
  · intro b r h1 hv h3
    rw [updateReportStatus_resolved_ok b r h1 hv h3]
    exact ⟨rfl, rfl⟩

/-- Witness for C1 at concrete inputs: resolving `exReport` (no stored
after-image) without an upload is a 400; resolving it with an uploaded
after-image succeeds. -/
theorem claim_C1_witness :
    updateReportStatus ⟨some "resolved", none, none, none, none⟩ exReport =
      (⟨400, false, "After image required to resolve."⟩, exReport) ∧
    (updateReportStatus ⟨some "resolved", some "https://res.x/after/img2.jpg", none, none, none⟩
        exReport).1.code = 200 ∧
    (updateReportStatus ⟨some "resolved", some "https://res.x/after/img2.jpg", none, none, none⟩
        exReport).2.status = "resolved" :=
  ⟨claim_C1.1 _ _ rfl (by decide) (by decide),
    claim_C1.2 _ _ rfl (by decide) (Or.inl (by decide))⟩

/-- A caller who is neither the owner of `exReport` nor an admin. -/
def exStranger : Caller := ⟨"someoneElse", "user"⟩

/-- The non-admin owner of `exReport`. -/
def exOwnerCaller : Caller := ⟨"owner1", "user"⟩

/-- `exReport` after triage began. -/
def exReportInProgress : Report := { exReport with status := "in-progress" }

/-- `exReport` with both a before- and an after-image stored. -/
def exReportTwoImages : Report :=
  { exReport with afterImageUrl := some "https://res.x/civic_issues/after/img2.jpg" }

/-- C5: an authenticated caller who is neither the report's owner nor an admin
gets 403 from image replace, image delete and report delete, each leaving the
stored report untouched. -/
theorem claim_C5 :
    (∀ (c : Caller) (up : Option String) (r : Report),
      r.user ≠ c.id → c.role ≠ "admin" →
      updateUserReportImage c true up r =
        (⟨403, false, "User not authorized to update this report"⟩, r)) ∧
    (∀ (c : Caller) (imageType : Option String) (r : Report),
      r.user ≠ c.id → c.role ≠ "admin" →
      deleteReportImage c imageType r = (⟨403, false, "User not authorized"⟩, r)) ∧
    (∀ (c : Caller) (destroyOk : String → Bool) (r : Report),
      r.user ≠ c.id → c.role ≠ "admin" →
      deleteReport c destroyOk r =
        ⟨⟨403, false, "User not authorized to delete this report"⟩, false, []⟩) := by
  refine ⟨?_, ?_, ?_⟩
  · intro c up r h1 h2
    simp [updateUserReportImage, h1]
  · intro c imageType r h1 h2
    simp [deleteReportImage, h1, h2]
  · intro c destroyOk r h1 h2
    simp [deleteReport, h1, h2]

/-- Witness for C5: a stranger's image replace, image delete and report delete
on `exReport` each answer 403. -/
theorem claim_C5_witness :
    updateUserReportImage exStranger true (some "https://res.x/civic_issues/new.jpg") exReport =
      (⟨403, false, "User not authorized to update this report"⟩, exReport) ∧
    deleteReportImage exStranger (some "before") exReport =
      (⟨403, false, "User not authorized"⟩, exReport) ∧
    deleteReport exStranger (fun _ => true) exReport =
      ⟨⟨403, false, "User not authorized to delete this report"⟩, false, []⟩ :=
  ⟨claim_C5.1 _ _ _ (by decide) (by decide),
   claim_C5.2.1 _ _ _ (by decide) (by decide),
   claim_C5.2.2 _ _ _ (by decide) (by decide)⟩

/-- C6: for the non-admin owner, image replace and image delete on a non-pending
report answer 400 with the stored report untouched, and both operations answer
200 only when the report is pending. -/
theorem claim_C6 :
    (∀ (c : Caller) (up : Option String) (r : Report),
      r.user = c.id → r.status ≠ "pending" →
      updateUserReportImage c true up r =
        (⟨400, false, "Cannot change image for a report that is in progress or resolved"⟩, r)) ∧
    (∀ (c : Caller) (imageType : Option String) (r : Report),
      c.role ≠ "admin" → r.user = c.id → r.status ≠ "pending" →
      deleteReportImage c imageType r =
        (⟨400, false, "Cannot delete image for a non-pending report"⟩, r)) ∧
    (∀ (c : Caller) (hasFile : Bool) (up : Option String) (r : Report),
      (updateUserReportImage c hasFile up r).1.code = 200 → r.status = "pending") ∧
    (∀ (c : Caller) (imageType : Option String) (r : Report),
      c.role ≠ "admin" → (deleteReportImage c imageType r).1.code = 200 →
      r.status = "pending") := by
  refine ⟨?_, ?_, ?_, ?_⟩
  · intro c up r h1 h2
    simp [updateUserReportImage, h1, h2]
  · intro c imageType r hrole h1 h2
    simp [deleteReportImage, hrole, h1, h2]
  · intro c hasFile up r h
    by_cases hs : r.status = "pending"
    · exact hs
    · exfalso
      cases hasFile with
      | false => simp [updateUserReportImage] at h
      | true =>
        by_cases hu : r.user = c.id
        · simp [updateUserReportImage, hu, hs] at h
        · simp [updateUserReportImage, hu] at h
  · intro c imageType r hrole h
    by_cases hs : r.status = "pending"
    · exact hs
    · exfalso
      by_cases hu : r.user = c.id
      · simp [deleteReportImage, hrole, hu, hs] at h
      · simp [deleteReportImage, hrole, hu] at h

/-- Witness for C6: the owner's identical requests are rejected once the report
is in progress, while `exReport` itself is pending. -/
theorem claim_C6_witness :
    updateUserReportImage exOwnerCaller true (some "https://res.x/civic_issues/new.jpg")
        exReportInProgress =
      (⟨400, false, "Cannot change image for a report that is in progress or resolved"⟩,
        exReportInProgress) ∧
    deleteReportImage exOwnerCaller none exReportInProgress =
      (⟨400, false, "Cannot delete image for a non-pending report"⟩, exReportInProgress) ∧
    exReport.status = "pending" :=
  ⟨claim_C6.1 _ _ _ (by decide) (by decide),
   claim_C6.2.1 _ _ _ (by decide) (by decide) (by decide),
   claim_C6.2.2.1 exOwnerCaller true (some "https://res.x/civic_issues/new.jpg") exReport
     (by decide)⟩

/-- C7: with email and password supplied, the login failure response for an
unknown email equals the failure response for a known email with a failing hash
comparison — both are a 401 `'Invalid credentials'` with no payload, so the
response does not reveal whether the account exists. -/
theorem claim_C7 :
    ∀ (compare : String → String → Bool) (db1 db2 : List User) (email pw : Option String),
      jsTruthy email = true → jsTruthy pw = true →
      db1.find? (fun u => some u.email = email) = none →
      (∀ u, db2.find? (fun u => some u.email = email) = some u →
        compare (pw.getD "") u.password = false) →
      login compare db1 email pw = (⟨401, false, "Invalid credentials"⟩, none) ∧
      login compare db1 email pw = login compare db2 email pw := by
  intro compare db1 db2 email pw he hp h1 h2
  have l1 : login compare db1 email pw = (⟨401, false, "Invalid credentials"⟩, none) := by
    simp [login, he, hp, h1]
  refine ⟨l1, ?_⟩
  rw [l1]
  cases hf : db2.find? (fun u => some u.email = email) with
  | none => simp [login, he, hp, hf]
  | some u => simp [login, he, hp, hf, h2 u hf]

/-- A stored credential for the C7 witness. -/
def exUser7 : User := ⟨"u1", "a@b.c", "storedHash"⟩

/-- Witness for C7: against an empty store and against a store holding the
account with a failing comparison, the same login attempt gets the same 401. -/
theorem claim_C7_witness :
    login (fun _ _ => false) [] (some "a@b.c") (some "pw") =
      (⟨401, false, "Invalid credentials"⟩, none) ∧
    login (fun _ _ => false) [] (some "a@b.c") (some "pw") =
      login (fun _ _ => false) [exUser7] (some "a@b.c") (some "pw") :=
  claim_C7 (fun _ _ => false) [] [exUser7] (some "a@b.c") (some "pw")
    (by decide) (by decide) (by decide) (fun u _ => rfl)

/-- C8: when the owner or an admin deletes a report storing two image URLs, the
external destroy is attempted for both derived public ids whatever the outcome
oracle says (so a failure of either attempt prevents neither the other attempt
nor the removal), the record is removed, and the response is a 200. -/
theorem claim_C8 :
    ∀ (c : Caller) (destroyOk : String → Bool) (r : Report) (u1 u2 : String),
      (r.user = c.id ∨ c.role = "admin") →
      r.imageUrl = some u1 → u1 ≠ "" →
      r.afterImageUrl = some u2 → u2 ≠ "" →
      (deleteReport c destroyOk r).removed = true ∧
      (deleteReport c destroyOk r).resp = ⟨200, true, "Report deleted successfully"⟩ ∧
      (deleteReport c destroyOk r).attempts =
        [(derivePublicId u1, destroyOk (derivePublicId u1)),
         (derivePublicId u2, destroyOk (derivePublicId u2))] := by
  intro c destroyOk r u1 u2 hauth h1 h1n h2 h2n
  simp only [deleteReport, cloudinaryDestroyAttempts, h1, h2, jsTruthy, h1n, h2n]
  rcases hauth with h | h <;> simp [h, h1n, h2n]

/-- Witness for C8: the owner deletes `exReportTwoImages` while every external
destroy fails; both public ids are still attempted and the record is removed. -/
theorem claim_C8_witness :
    (deleteReport exOwnerCaller (fun _ => false) exReportTwoImages).removed = true ∧
    (deleteReport exOwnerCaller (fun _ => false) exReportTwoImages).resp =
      ⟨200, true, "Report deleted successfully"⟩ ∧
    (deleteReport exOwnerCaller (fun _ => false) exReportTwoImages).attempts =
      [(derivePublicId "https://res.x/civic_issues/img1.jpg",
        (fun _ => false) (derivePublicId "https://res.x/civic_issues/img1.jpg")),
       (derivePublicId "https://res.x/civic_issues/after/img2.jpg",
        (fun _ => false) (derivePublicId "https://res.x/civic_issues/after/img2.jpg"))] :=
  claim_C8 exOwnerCaller (fun _ => false) exReportTwoImages
    "https://res.x/civic_issues/img1.jpg" "https://res.x/civic_issues/after/img2.jpg"
    (Or.inl (by decide)) (by decide) (by decide) (by decide) (by decide)

/-- When the caller id is absent, the toggle appends it. -/
lemma toggleUpvote_not_mem (l : List String) (u : String) (h : u ∉ l) :
    toggleUpvote l u = l ++ [u] := by
  unfold toggleUpvote
  have hf : l.findIdx? (· = u) = none :=
    List.findIdx?_eq_none_iff.mpr (fun x hx => by
      simp only [decide_eq_false_iff_not]
      exact fun e => h (e ▸ hx))
  rw [hf]

/-- When the caller id is present, the toggle removes its first occurrence. -/
lemma toggleUpvote_mem (l : List String) (u : String) (h : u ∈ l) :
    toggleUpvote l u = l.erase u := by
  induction l with
  | nil => cases h
  | cons a t ih =>
    unfold toggleUpvote
    rw [List.findIdx?_cons]
    by_cases hau : a = u
    · rw [if_pos (by simp [hau])]
      subst hau
      show (a :: t).eraseIdx 0 = (a :: t).erase a
      rw [List.erase_cons_head]
      rfl
    · rw [if_neg (by simp [hau]), List.findIdx?_succ]
      have hm : u ∈ t := by
        rcases List.mem_cons.mp h with h' | h'
        · exact absurd h'.symm hau
        · exact h'
      have ht := ih hm
      unfold toggleUpvote at ht
      cases hft : t.findIdx? (· = u) with
      | none =>
        rw [List.findIdx?_eq_none_iff] at hft
        have h2 := hft u hm
        rw [decide_eq_false_iff_not] at h2
        exact absurd rfl h2
      | some i =>
        rw [hft] at ht
        show (a :: t).eraseIdx (i + 1) = (a :: t).erase u
        rw [List.erase_cons_tail (by simp [hau])]
        exact congrArg (a :: ·) ht

/-- With at most one occurrence, erasing the id removes it entirely. -/
lemma count_le_one_mem_erase (l : List String) (u : String)
    (hc : l.count u ≤ 1) (hm : u ∈ l) : u ∉ l.erase u := by
  rw [← List.count_eq_zero, List.count_erase_self]
  have h1 : 1 ≤ l.count u := List.one_le_count_iff.mpr hm
  omega

/-- C3: on a schema-valid report whose upvoter list holds the caller at most
once, toggling twice restores the original upvoter set, a single toggle never
leaves the caller twice, and one call appends the caller exactly when absent and
removes exactly the caller's entry (other counts untouched) when present. -/
theorem claim_C3 :
    ∀ (r : Report) (u : String),
      validReport r = true → r.upvotes.count u ≤ 1 →
      (∀ x, x ∈ ((upvoteReport u (upvoteReport u r).2).2).upvotes ↔ x ∈ r.upvotes) ∧
      ((upvoteReport u r).2).upvotes.count u ≤ 1 ∧
      (u ∉ r.upvotes → ((upvoteReport u r).2).upvotes = r.upvotes ++ [u]) ∧
      (u ∈ r.upvotes → u ∉ ((upvoteReport u r).2).upvotes ∧
        ∀ x, x ≠ u → ((upvoteReport u r).2).upvotes.count x = r.upvotes.count x) := by
  intro r u hv hc
  have hval : ∀ l : List String, validReport { r with upvotes := l } = true := fun l => hv
  have hstep : ∀ l : List String,
      (upvoteReport u { r with upvotes := l }).2 =
        { r with upvotes := toggleUpvote l u } := by
    intro l
    simp only [upvoteReport]
    rw [hval (toggleUpvote l u)]
    simp
  have hstep0 : (upvoteReport u r).2 = { r with upvotes := toggleUpvote r.upvotes u } :=
    hstep r.upvotes
  refine ⟨?_, ?_, ?_, ?_⟩
  · intro x
    rw [hstep0, hstep (toggleUpvote r.upvotes u)]
    show x ∈ toggleUpvote (toggleUpvote r.upvotes u) u ↔ x ∈ r.upvotes
    by_cases hm : u ∈ r.upvotes
    · rw [toggleUpvote_mem _ _ hm]
      have hnm : u ∉ r.upvotes.erase u := count_le_one_mem_erase _ _ hc hm
      rw [toggleUpvote_not_mem _ _ hnm]
      constructor
      · intro hx
        rcases List.mem_append.mp hx with hx | hx
        · by_cases hxu : x = u
          · exact hxu ▸ hm
          · exact (List.mem_erase_of_ne hxu).mp hx
        · rw [List.mem_singleton.mp hx]; exact hm
      · intro hx
        by_cases hxu : x = u
        · exact List.mem_append.mpr (Or.inr (by simp [hxu]))
        · exact List.mem_append.mpr (Or.inl ((List.mem_erase_of_ne hxu).mpr hx))
    · rw [toggleUpvote_not_mem _ _ hm]
      have hm2 : u ∈ r.upvotes ++ [u] := List.mem_append.mpr (Or.inr (by simp))
      rw [toggleUpvote_mem _ _ hm2, List.erase_append_right _ hm, List.erase_cons_head]
      simp
  · rw [hstep0]
    show (toggleUpvote r.upvotes u).count u ≤ 1
    by_cases hm : u ∈ r.upvotes
    · rw [toggleUpvote_mem _ _ hm, List.count_erase_self]
      omega
    · rw [toggleUpvote_not_mem _ _ hm, List.count_append]
      have h0 : r.upvotes.count u = 0 := List.count_eq_zero.mpr hm
      simp [h0]
  · intro hm
    rw [hstep0]
    show toggleUpvote r.upvotes u = r.upvotes ++ [u]
    exact toggleUpvote_not_mem _ _ hm
  · intro hm
    rw [hstep0]
    constructor
    · show u ∉ toggleUpvote r.upvotes u
      rw [toggleUpvote_mem _ _ hm]
      exact count_le_one_mem_erase _ _ hc hm
    · intro x hx
      show (toggleUpvote r.upvotes u).count x = r.upvotes.count x
      rw [toggleUpvote_mem _ _ hm]
      exact List.count_erase_of_ne hx _

/-- `exReport` already upvoted by `voter1`. -/
def exReportUpvoted : Report := { exReport with upvotes := ["voter1"] }

/-- Witness for C3: a fresh upvote on `exReport` appends `voter1` and keeps the
list duplicate-free, and a second toggle on the already-upvoted report removes
`voter1` again. -/
theorem claim_C3_witness :
    (((upvoteReport "voter1" exReport).2).upvotes = exReport.upvotes ++ ["voter1"]) ∧
    (((upvoteReport "voter1" exReport).2).upvotes.count "voter1" ≤ 1) ∧
    ("voter1" ∉ ((upvoteReport "voter1" exReportUpvoted).2).upvotes) :=
  ⟨(claim_C3 exReport "voter1" (by decide) (by decide)).2.2.1 (by decide),
   (claim_C3 exReport "voter1" (by decide) (by decide)).2.1,
   ((claim_C3 exReportUpvoted "voter1" (by decide) (by decide)).2.2.2 (by decide)).1⟩


/-- `createReport` always builds a pending report. -/
lemma buildReportData_status (uid : String) (b : CreateBody) :
    (buildReportData uid b).status = "pending" := by
  simp only [buildReportData]
  split <;> split <;> split <;> rfl

/-- With both coordinates truthy, the stored location is
`[parseFloat(longitude), parseFloat(latitude)]`. -/
lemma buildReportData_location (uid : String) (b : CreateBody)
    (h1 : jsTruthy b.latitude = true) (h2 : jsTruthy b.longitude = true) :
    (buildReportData uid b).location =
      some ⟨"Point", [parseFloatJS (b.longitude.getD ""), parseFloatJS (b.latitude.getD "")]⟩ := by
  simp only [buildReportData, h1, h2, Bool.and_self, if_true]

/-- With a truthy severity parsing to `n`, the derived priority follows the
`≥ 4` / `≤ 2` thresholds. -/
lemma buildReportData_priority_severity (uid : String) (b : CreateBody) (n : Int)
    (h1 : jsTruthy b.severity = true) (h2 : parseIntJS (b.severity.getD "") = some n) :
    (buildReportData uid b).priority =
      if n ≥ 4 then "high" else if n ≤ 2 then "low" else "medium" := by
  simp only [buildReportData, h1, h2, if_true, Option.elim_some]
  by_cases h4 : n ≥ 4
  · simp [h4]
    split <;> split <;> rfl
  · by_cases h5 : n ≤ 2
    · simp [h4, h5]
      split <;> split <;> rfl
    · simp [h4, h5]
      split <;> split <;> rfl

/-- Without a truthy severity, the priority stays the default `'medium'`. -/
lemma buildReportData_priority_noSeverity (uid : String) (b : CreateBody)
    (h1 : jsTruthy b.severity = false) :
    (buildReportData uid b).priority = "medium" := by
  simp only [buildReportData, h1, Bool.false_eq_true, if_false]
  split <;> split <;> rfl

/-- The stored title is `title || category`. -/
lemma buildReportData_title (uid : String) (b : CreateBody) :
    (buildReportData uid b).title =
      (if jsTruthy b.title then b.title else b.category) := by
  simp only [buildReportData]
  split <;> split <;> split <;> rfl

/-- A successful create returns exactly the built `reportData`. -/
lemma createReport_ok (uid : String) (b : CreateBody) (resp : Resp) (rep : Report)
    (h : createReport uid b = (resp, some rep)) : rep = buildReportData uid b := by
  unfold createReport at h
  by_cases hv : validReport (buildReportData uid b) = true
  · rw [if_pos hv] at h
    have h2 := congrArg Prod.snd h
    simp only [Option.some.injEq] at h2
    exact h2.symm
  · rw [if_neg hv] at h
    have h2 := congrArg Prod.snd h
    simp at h2

/-- C9: every successfully created report is `'pending'`; when both coordinates
are supplied the location stores `[longitude, latitude]` in that order; a
supplied severity parsing to `n` yields priority `'high'` for `n ≥ 4`, `'low'`
for `n ≤ 2` and `'medium'` otherwise; with no severity the priority is
`'medium'`. -/
theorem claim_C9 :
    ∀ (uid : String) (b : CreateBody) (resp : Resp) (rep : Report),
      createReport uid b = (resp, some rep) →
      rep.status = "pending" ∧
      (jsTruthy b.latitude = true → jsTruthy b.longitude = true →
        rep.location = some ⟨"Point",
          [parseFloatJS (b.longitude.getD ""), parseFloatJS (b.latitude.getD "")]⟩) ∧
      (∀ n : Int, jsTruthy b.severity = true → parseIntJS (b.severity.getD "") = some n →
        rep.priority = if n ≥ 4 then "high" else if n ≤ 2 then "low" else "medium") ∧
      (jsTruthy b.severity = false → rep.priority = "medium") := by
  intro uid b resp rep h
  have he := createReport_ok uid b resp rep h
  subst he
  exact ⟨buildReportData_status uid b,
    fun h1 h2 => buildReportData_location uid b h1 h2,
    fun n h1 h2 => buildReportData_priority_severity uid b n h1 h2,
    fun h1 => buildReportData_priority_noSeverity uid b h1⟩

/-- The spec's create scenario: Roads & Potholes at (12.9, 77.6), no severity. -/
def exBody9 : CreateBody :=
  { title := none
    category := some "Roads & Potholes"
    address := some "Main St"
    description := some "Large pothole"
    latitude := some "12.9"
    longitude := some "77.6"
    severity := none
    imageUrl := none }

/-- The same scenario with severity 5 supplied. -/
def exBody9sev : CreateBody := { exBody9 with severity := some "5" }

/-- Witness for C9 on the spec's scenario: pending, medium priority,
coordinates `[77.6, 12.9]`; and severity 5 derives priority `'high'`. -/
theorem claim_C9_witness :
    (buildReportData "u0" exBody9).status = "pending" ∧
    (buildReportData "u0" exBody9).location =
      some ⟨"Point", [parseFloatJS (exBody9.longitude.getD ""),
                      parseFloatJS (exBody9.latitude.getD "")]⟩ ∧
    (buildReportData "u0" exBody9).priority = "medium" ∧
    (buildReportData "u0" exBody9sev).priority = "high" := by
  have h := claim_C9 "u0" exBody9 ⟨201, true, "Report submitted successfully"⟩
    (buildReportData "u0" exBody9) (by decide)
  have h' := claim_C9 "u0" exBody9sev ⟨201, true, "Report submitted successfully"⟩
    (buildReportData "u0" exBody9sev) (by decide)
  refine ⟨h.1, h.2.1 (by decide) (by decide), h.2.2.2 (by decide), ?_⟩
  have hp := h'.2.2.1 5 (by decide) (by decide)
  rw [if_pos (by norm_num : (5 : Int) ≥ 4)] at hp
  exact hp

/-- C10: in every successful create, an absent or empty title is replaced by the
category, and the stored title is truthy whenever the category is. -/
theorem claim_C10 :
    ∀ (uid : String) (b : CreateBody) (resp : Resp) (rep : Report),
      createReport uid b = (resp, some rep) →
      (jsTruthy b.title = false → rep.title = b.category) ∧
      (jsTruthy b.category = true → jsTruthy rep.title = true) := by
  intro uid b resp rep h
  have he := createReport_ok uid b resp rep h
  subst he
  constructor
  · intro h1
    rw [buildReportData_title, h1]
    simp
  · intro h1
    rw [buildReportData_title]
    by_cases ht : jsTruthy b.title = true
    · rw [if_pos ht]
      exact ht
    · have ht' : jsTruthy b.title = false := by simpa using ht
      simp [ht', h1]

/-- Witness for C10: the titleless scenario's stored title is its category and
is non-empty. -/
theorem claim_C10_witness :
    (buildReportData "u0" exBody9).title = exBody9.category ∧
    jsTruthy (buildReportData "u0" exBody9).title = true := by
  have h := claim_C10 "u0" exBody9 ⟨201, true, "Report submitted successfully"⟩
    (buildReportData "u0" exBody9) (by decide)
  exact ⟨h.1 (by decide), h.2 (by decide)⟩

/-- A save in `updateReportStatus` that answered 200 stored the updated
document. -/
lemma save400_code200 (r' r : Report)
    (h : ((if validReport r' = true then ((⟨200, true, ""⟩ : Resp), r')
        else (⟨400, false, "ValidationError"⟩, r))).1.code = 200) :
    (if validReport r' = true then ((⟨200, true, ""⟩ : Resp), r')
        else (⟨400, false, "ValidationError"⟩, r)).2 = r' := by
  by_cases hv : validReport r' = true
  · rw [if_pos hv]
  · rw [if_neg hv] at h
    cases h

/-- A 200 from `updateReportStatus` means exactly the truthy `status` and
`afterImageUrl` body fields were copied onto the stored document. -/
lemma updateReportStatus_code200 (b : UpdateBody) (r : Report)
    (h : (updateReportStatus b r).1.code = 200) :
    (updateReportStatus b r).2 =
      { r with
        afterImageUrl := if jsTruthy b.afterImageUrl then b.afterImageUrl else r.afterImageUrl,
        status := if jsTruthy b.status then b.status.getD r.status else r.status } := by
  unfold updateReportStatus at h ⊢
  by_cases hg : (b.status = some "resolved" && !jsTruthy b.afterImageUrl
      && !jsTruthy r.afterImageUrl) = true
  · rw [if_pos hg] at h
    cases h
  · rw [if_neg hg] at h ⊢
    by_cases ha : jsTruthy b.afterImageUrl = true
    · by_cases hs : jsTruthy b.status = true
      · simp only [ha, hs, if_true] at h ⊢
        exact save400_code200 _ _ h
      · have hs' : jsTruthy b.status = false := by simpa using hs
        simp only [ha, hs', if_true, Bool.false_eq_true, if_false] at h ⊢
        exact save400_code200 _ _ h
    · have ha' : jsTruthy b.afterImageUrl = false := by simpa using ha
      by_cases hs : jsTruthy b.status = true
      · simp only [ha', hs, if_true, Bool.false_eq_true, if_false] at h ⊢
        rw [save400_code200 _ _ h]
      · have hs' : jsTruthy b.status = false := by simpa using hs
        simp only [ha', hs', Bool.false_eq_true, if_false] at h ⊢
        rw [save400_code200 _ _ h]



/-- C4 (amended): an accepted `updateReportStatus` patch is not applied
verbatim — only its `status` and `afterImageUrl` fields (each when truthy)
overwrite the stored record, and every other stored field, `priority` and
`assignedDepartment` included, is returned unchanged. -/
theorem claim_C4 :
    ∀ (b : UpdateBody) (r : Report),
      (updateReportStatus b r).1.code = 200 →
      (updateReportStatus b r).2.status =
        (if jsTruthy b.status then b.status.getD r.status else r.status) ∧
      (updateReportStatus b r).2.afterImageUrl =
        (if jsTruthy b.afterImageUrl then b.afterImageUrl else r.afterImageUrl) ∧
      (updateReportStatus b r).2.user = r.user ∧
      (updateReportStatus b r).2.category = r.category ∧
      (updateReportStatus b r).2.title = r.title ∧
      (updateReportStatus b r).2.description = r.description ∧
      (updateReportStatus b r).2.imageUrl = r.imageUrl ∧
      (updateReportStatus b r).2.location = r.location ∧
      (updateReportStatus b r).2.address = r.address ∧
      (updateReportStatus b r).2.priority = r.priority ∧
      (updateReportStatus b r).2.assignedDepartment = r.assignedDepartment ∧
      (updateReportStatus b r).2.severity = r.severity ∧
      (updateReportStatus b r).2.upvotes = r.upvotes := by
  intro b r h
  rw [updateReportStatus_code200 b r h]
  exact ⟨rfl, rfl, rfl, rfl, rfl, rfl, rfl, rfl, rfl, rfl, rfl, rfl, rfl⟩

/-- A patch carrying only a `priority` field. -/
def exPatchC4 : UpdateBody :=
  { status := none, afterImageUrl := none, priority := some "high",
    assignedDepartment := none, description := none }

/-- Counterexample to C4 as stated: a patch whose `priority` field is
`'high'` is accepted (200) yet the stored priority stays `'medium'` — the patch
is not applied verbatim. -/
theorem claim_C4_counterexample :
    (updateReportStatus exPatchC4 exReport).1.code = 200 ∧
    exPatchC4.priority = some "high" ∧
    ((updateReportStatus exPatchC4 exReport).2).priority = "medium" := by decide

/-- A patch setting `status` and (ignored) `priority`. -/
def exPatchC4b : UpdateBody :=
  { status := some "in-progress", afterImageUrl := none, priority := some "high",
    assignedDepartment := none, description := none }

/-- Witness for C4 (amended): a concrete accepted patch updates `status` and
leaves `priority` untouched. -/
theorem claim_C4_witness :
    (updateReportStatus exPatchC4b exReport).2.status = "in-progress" ∧
    (updateReportStatus exPatchC4b exReport).2.priority = exReport.priority := by
  have h := claim_C4 exPatchC4b exReport (by decide)
  refine ⟨?_, h.2.2.2.2.2.2.2.2.2.1⟩
  have h1 := h.1
  rw [if_pos (by decide : jsTruthy exPatchC4b.status = true)] at h1
  exact h1

/-- C2 (amended): `updateReportStatus`, `upvoteReport`, the owner image
operations and the spec-modelled `assignDepartment` never change the stored
`user` field, and `bulkUpdateReports` preserves it whenever the patch carries no
`user` key.  (The unamended claim fails: a bulk patch with a `user` key
overwrites the owner, see the counterexample.) -/
theorem claim_C2 :
    (∀ (b : UpdateBody) (r : Report), ((updateReportStatus b r).2).user = r.user) ∧
    (∀ (u : String) (r : Report), ((upvoteReport u r).2).user = r.user) ∧
    (∀ (c : Caller) (hasFile : Bool) (up : Option String) (r : Report),
      ((updateUserReportImage c hasFile up r).2).user = r.user) ∧
    (∀ (c : Caller) (imageType : Option String) (r : Report),
      ((deleteReportImage c imageType r).2).user = r.user) ∧
    (∀ (d : String) (r : Report), ((assignDepartment d r).2).user = r.user) ∧
    (∀ (ids : List String) (p : BulkPatch) (db : List (String × Report)),
      p.user = none →
      ((bulkUpdateReports ids p db).2).map (fun e => e.2.user) =
        db.map (fun e => e.2.user)) := by
  refine ⟨?_, ?_, ?_, ?_, ?_, ?_⟩
  · intro b r
    simp only [updateReportStatus]
    split
    · rfl
    · repeat' split
      all_goals rfl
  · intro u r
    simp only [upvoteReport]
    split <;> rfl
  · intro c hasFile up r
    simp only [updateUserReportImage]
    repeat' split
    all_goals rfl
  · intro c imageType r
    unfold deleteReportImage saveCleared
    split
    · split
      · split <;> rfl
      · split
        · split <;> rfl
        · rfl
    · split
      · rfl
      · split
        · rfl
        · split
          · split <;> rfl
          · rfl
  · intro d r
    rfl
  · intro ids p db hu
    unfold bulkUpdateReports
    by_cases hv : bulkPatchValid p = true
    · rw [if_pos hv]
      show (db.map fun e => if ids.contains e.1 = true then (e.1, applyBulkPatch p e.2) else e).map
            (fun e => e.2.user) = db.map (fun e => e.2.user)
      induction db with
      | nil => rfl
      | cons e t ih =>
        simp only [List.map_cons, List.cons.injEq]
        refine ⟨?_, ih⟩
        by_cases hc : ids.contains e.1 = true
        · rw [if_pos hc]
          show (applyBulkPatch p e.2).user = e.2.user
          simp [applyBulkPatch, hu]
        · rw [if_neg hc]
    · rw [if_neg hv]

/-- A bulk `updateData` patch carrying a `user` key. -/
def exBulkPatchUser : BulkPatch :=
  { user := some "attacker", status := none, priority := none, assignedDepartment := none }

/-- Counterexample to C2 as stated: `bulkUpdateReports` with
`updateData = { user: 'attacker' }` rewrites the stored owner id. -/
theorem claim_C2_counterexample :
    exReport.user = "owner1" ∧
    ((bulkUpdateReports ["r1"] exBulkPatchUser [("r1", exReport)]).2).map
        (fun e => e.2.user) = ["attacker"] := by decide

/-- Witness for C2 (amended): upvoting keeps the owner, and a user-free bulk
patch keeps every owner. -/
theorem claim_C2_witness :
    ((upvoteReport "voter2" exReport).2).user = exReport.user ∧
    ((bulkUpdateReports ["r1"] ⟨none, some "in-progress", none, none⟩
        [("r1", exReport)]).2).map (fun e => e.2.user) =
      [("r1", exReport)].map (fun e => e.2.user) :=
  ⟨claim_C2.2.1 "voter2" exReport,
   claim_C2.2.2.2.2.2 ["r1"] ⟨none, some "in-progress", none, none⟩ [("r1", exReport)] rfl⟩

end Civic
